import Mathlib

/-!
Verification of the Monty Hall game engine of `tools/monty-hall/app.js`.

The mutable module-level `gameState` object of the source is embedded as an
explicit `GameState` record, and each operation of the source becomes a pure
function from (inputs and) a pre-state to a post-state.  The source's phase
names are kept verbatim: the phase the specification calls DECIDE is the
string `"SWITCH_OR_STAY"` of the source, and the phase the specification
calls RESOLVED is the string `"REVEAL"` of the source.

Randomness (`Math.floor(Math.random() * k)`, a uniform draw from `[0, k)`)
is embedded by passing the draws explicitly: a single draw becomes a `Nat`
argument reduced modulo the range, and the draw sequence of the reveal loop
becomes a function `rand : Nat → Nat` whose value at step `i` is reduced
modulo the current candidate-list length.  Quantifying over these arguments
covers every sequence of outcomes the source can draw.

Probabilities, computed by the source with JavaScript floating-point
division, are embedded over the exact rationals `ℚ`; every division the
source performs is by a nonzero denominator under the stated invariants.

`localStorage` writes are embedded as the explicit key/value list a call to
`saveStatistics` emits.  A JavaScript function that can throw is embedded
with an explicit error channel (`Option MontyError`); none of the embedded
source functions ever throws, so the code-faithful value is always `none`
— the channel exists so that the error-handling sentences of the
specification can be stated and compared against the code.
-/

namespace MontyHallSim

/-- The errors named by the specification's error-handling design.  The
source code never signals any of them; the type is used to state (and
refute) the specification's claims about error signalling. -/
inductive MontyError where
  | invalidPhaseTransition
  | invalidDoorCount
  | invalidDoorIndex
deriving DecidableEq, Repr

/-- The module-level `gameState` object of `tools/monty-hall/app.js`
(lines 7–17), with the DOM-irrelevant fields kept as in the source.
`carDoor` and `selectedDoor` are `null` before being set, hence `Option`. -/
structure GameState where
  numDoors : Nat
  carDoor : Option Nat
  selectedDoor : Option Nat
  revealedDoors : List Nat
  phase : String
  stayWins : Nat
  switchWins : Nat
  totalGames : Nat
  showProbabilities : Bool
deriving DecidableEq, Repr

/-- The literal initial value of `gameState` (app.js lines 7–17). -/
def initialGameState : GameState :=
  { numDoors := 3, carDoor := none, selectedDoor := none, revealedDoors := [],
    phase := "SELECT", stayWins := 0, switchWins := 0, totalGames := 0,
    showProbabilities := false }

/-- `resetGame` (app.js lines 58–73), state-mutating part only: draws a new
car door uniformly from `[0, numDoors)` (the draw is the explicit argument
`r`, reduced modulo `numDoors`), clears the selection and the revealed
doors, and returns to the SELECT phase.  The function never throws, so the
error channel is always `none`. -/
def resetGame (r : Nat) (s : GameState) : GameState × Option MontyError :=
  ({ s with carDoor := some (r % s.numDoors), selectedDoor := none,
            revealedDoors := [], phase := "SELECT" }, none)

/-- The `change` handler of the door
count input (app.js lines 40–46): the parsed value is accepted only when
`3 ≤ newCount ≤ 10`, in which case `numDoors` is set and `resetGame` runs;
any other value is silently ignored. -/
def doorCountChange (newCount : Int) (r : Nat) (s : GameState) :
    GameState × Option MontyError :=
  if 3 ≤ newCount ∧ newCount ≤ 10 then
    resetGame r { s with numDoors := newCount.toNat }
  else (s, none)

/-- The `availableDoors` list built by `revealDoor` (app.js lines 194–199):
every door index that is neither the car door nor the selected door. -/
def availableDoorsOf (s : GameState) : List Nat :=
  (List.range s.numDoors).filter
    (fun i => decide (some i ≠ s.carDoor ∧ some i ≠ s.selectedDoor))

/-- The reveal loop of `revealDoor` (app.js lines 204–209): `k` times, draw
a uniformly random position in the remaining candidate list (`rand step`
reduced modulo the current length), splice that door out of the candidates
and push it onto the revealed list; stop early if the candidates run out. -/
def revealLoop (rand : Nat → Nat) :
    Nat → Nat → List Nat → List Nat → List Nat × List Nat
  | 0, _, avail, rev => (avail, rev)
  | k + 1, step, avail, rev =>
    if avail.length = 0 then (avail, rev)
    else
      let idx := rand step % avail.length
      revealLoop rand k (step + 1) (avail.eraseIdx idx) (rev ++ [avail.getD idx 0])

/-- `revealDoor` (app.js lines 193–210): reveal
`min (numDoors - 2) availableDoors.length` doors drawn without replacement
from the candidates that are neither the car nor the selection. -/
def revealDoor (rand : Nat → Nat) (s : GameState) : GameState :=
  let availableDoors := availableDoorsOf s
  let doorsToReveal := min (s.numDoors - 2) availableDoors.length
  { s with revealedDoors :=
      (revealLoop rand doorsToReveal 0 availableDoors s.revealedDoors).2 }

/-- `selectDoor` (app.js lines 175–188), state-mutating part: outside the
SELECT phase the call returns at once; otherwise the clicked index becomes
the selection (no range or revealed check is performed on it), the phase
advances to SWITCH_OR_STAY and `revealDoor` runs.  The function never
throws, so the error channel is always `none`. -/
def selectDoor (rand : Nat → Nat) (doorIndex : Nat) (s : GameState) :
    GameState × Option MontyError :=
  if s.phase ≠ "SELECT" then (s, none)
  else
    (revealDoor rand
      { s with selectedDoor := some doorIndex, phase := "SWITCH_OR_STAY" }, none)

/-- The `unopenedDoors` list built by `calculateProbability`
(app.js lines 147–152): every door index not yet revealed. -/
def unopenedDoorsOf (s : GameState) : List Nat :=
  (List.range s.numDoors).filter (fun i => !decide (i ∈ s.revealedDoors))

/-- `calculateProbability` (app.js lines 141–170), over exact rationals:
in SELECT every door has probability `1 / numDoors`; in SWITCH_OR_STAY the
selected door keeps `1 / numDoors`, revealed doors have `0`, and every
other unopened door gets the remaining mass split evenly; in any other
phase (REVEAL) the car door has probability `1` and the rest `0`. -/
def calculateProbability (s : GameState) (doorIndex : Nat) : ℚ :=
  if s.phase = "SELECT" then 1 / (s.numDoors : ℚ)
  else if s.phase = "SWITCH_OR_STAY" then
    if some doorIndex = s.selectedDoor then 1 / (s.numDoors : ℚ)
    else if doorIndex ∈ s.revealedDoors then 0
    else
      (1 - 1 / (s.numDoors : ℚ)) /
        (((unopenedDoorsOf s).filter
            (fun d => decide (some d ≠ s.selectedDoor))).length : ℚ)
  else if some doorIndex = s.carDoor then 1 else 0

/-- The `switch` scan of `makeDecision` (app.js lines 220–228): the first
door index that is neither the selection nor revealed, if any. -/
def switchTarget (s : GameState) : Option Nat :=
  ((List.range s.numDoors).filter
    (fun i => decide (some i ≠ s.selectedDoor ∧ i ∉ s.revealedDoors))).head?

/-- `saveStatistics` (app.js lines 292–296): the key/value pairs written to
`localStorage`, in source order. -/
def saveStatistics (s : GameState) : List (String × Nat) :=
  [("montyHall_stayWins", s.stayWins),
   ("montyHall_switchWins", s.switchWins),
   ("montyHall_totalGames", s.totalGames)]

/-- The observable outcome of one `makeDecision` call: the post-state, the
`won` flag driving the displayed message (`none` when the call returned at
the phase guard), the `localStorage` writes performed, and the exception
channel (always `none`: the source never throws). -/
structure DecisionResult where
  state : GameState
  won : Option Bool
  saved : List (String × Nat)
  err : Option MontyError
deriving DecidableEq, Repr

/-- The `finalDoor` local of `makeDecision` (app.js lines 218–228): starts
as the current selection and becomes the first unrevealed non-selected door
when the decision is `"switch"` (unchanged when the scan finds nothing). -/
def mdFinalDoor (decision : String) (s : GameState) : Option Nat :=
  if decision = "switch" then
    match switchTarget s with
    | some d => some d
    | none => s.selectedDoor
  else s.selectedDoor

/-- The `won` local of `makeDecision` (app.js line 231). -/
def mdWon (decision : String) (s : GameState) : Bool :=
  mdFinalDoor decision s == s.carDoor

/-- The statistics update of `makeDecision` (app.js lines 234–239):
`totalGames` always increments; `stayWins` increments on a winning
`"stay"`; `switchWins` increments on a winning decision that is anything
other than `"stay"` (the source's `else` branch). -/
def mdStats (decision : String) (s : GameState) : GameState :=
  if decision = "stay" then
    (if mdWon decision s then
      { s with totalGames := s.totalGames + 1, stayWins := s.stayWins + 1 }
     else { s with totalGames := s.totalGames + 1 })
  else
    (if mdWon decision s then
      { s with totalGames := s.totalGames + 1, switchWins := s.switchWins + 1 }
     else { s with totalGames := s.totalGames + 1 })

/-- `makeDecision` (app.js lines 215–263), state/storage part: outside the
SWITCH_OR_STAY phase the call returns at once; otherwise the final door,
the `won` flag and the updated counters are as in `mdFinalDoor`, `mdWon`
and `mdStats`, the counters are persisted, and the phase becomes REVEAL
with the selection moved to the final door. -/
def makeDecision (decision : String) (s : GameState) : DecisionResult :=
  if s.phase ≠ "SWITCH_OR_STAY" then ⟨s, none, [], none⟩
  else
    ⟨{ mdStats decision s with
        selectedDoor := mdFinalDoor decision s, phase := "REVEAL" },
     some (mdWon decision s), saveStatistics (mdStats decision s), none⟩

/-- A concrete fresh round in phase SELECT: three doors, car behind door 0. -/
def exampleSelectState : GameState :=
  { numDoors := 3, carDoor := some 0, selectedDoor := none, revealedDoors := [],
    phase := "SELECT", stayWins := 0, switchWins := 0, totalGames := 0,
    showProbabilities := false }

/-- A concrete three-door round in phase SWITCH_OR_STAY: car behind door 1,
door 0 selected, door 2 revealed — switching wins. -/
def exampleDecideState : GameState :=
  { numDoors := 3, carDoor := some 1, selectedDoor := some 0, revealedDoors := [2],
    phase := "SWITCH_OR_STAY", stayWins := 0, switchWins := 0, totalGames := 0,
    showProbabilities := false }

/-- A concrete three-door round in phase SWITCH_OR_STAY in which the
selected door 0 hides the car — staying wins. -/
def exampleWinStayState : GameState :=
  { exampleDecideState with carDoor := some 0 }

/-- Splicing the element at a valid position back onto the front of the
spliced list is a permutation of the original list. -/
lemma getD_cons_eraseIdx_perm (l : List Nat) (i : Nat) (h : i < l.length) :
    (l.getD i 0 :: l.eraseIdx i).Perm l := by
  rw [List.getD_eq_getElem l 0 h]
  have h1 : l.Perm (l[i] :: l.erase l[i]) := List.perm_cons_erase (l.getElem_mem h)
  have h2 : (l.erase l[i]).Perm (l.eraseIdx i) := List.erase_getElem h
  exact ((h2.symm.cons l[i]).trans h1.symm)

/-- The reveal loop only moves doors: the revealed list plus the leftover
candidates is a permutation of the initial revealed list plus the initial
candidates. -/
lemma revealLoop_perm (rand : Nat → Nat) :
    ∀ (k step : Nat) (avail rev : List Nat),
      (((revealLoop rand k step avail rev).2) ++
        ((revealLoop rand k step avail rev).1)).Perm (rev ++ avail) := by
  intro k
  induction k with
  | zero => intro step avail rev; simp [revealLoop]
  | succ k ih =>
    intro step avail rev
    by_cases h : avail.length = 0
    · simp [revealLoop, h]
    · have hidx : rand step % avail.length < avail.length :=
        Nat.mod_lt _ (Nat.pos_of_ne_zero h)
      simp only [revealLoop, if_neg h]
      refine (ih (step + 1) (avail.eraseIdx (rand step % avail.length))
        (rev ++ [avail.getD (rand step % avail.length) 0])).trans ?_
      rw [List.append_assoc]
      exact List.Perm.append_left rev
        (getD_cons_eraseIdx_perm avail (rand step % avail.length) hidx)

/-- When the loop is asked for no more doors than are available, it reveals
exactly the asked number. -/
lemma revealLoop_length (rand : Nat → Nat) :
    ∀ (k step : Nat) (avail rev : List Nat), k ≤ avail.length →
      (revealLoop rand k step avail rev).2.length = rev.length + k := by
  intro k
  induction k with
  | zero => intro step avail rev _; simp [revealLoop]
  | succ k ih =>
    intro step avail rev hk
    have h : avail.length ≠ 0 := by omega
    have hidx : rand step % avail.length < avail.length :=
      Nat.mod_lt _ (Nat.pos_of_ne_zero h)
    have herase : (avail.eraseIdx (rand step % avail.length)).length + 1 = avail.length :=
      List.length_eraseIdx_add_one hidx
    simp only [revealLoop, if_neg h]
    rw [ih (step + 1) _ _ (by omega)]
    simp only [List.length_append, List.length_cons, List.length_nil]
    omega

/-- A filter over `List.range n` has the same length as the corresponding
filter of `Finset.range n`. -/
lemma length_filter_range (n : Nat) (p : Nat → Bool) :
    ((List.range n).filter p).length =
      ((Finset.range n).filter (fun d => p d = true)).card := by
  rw [← List.toFinset_card_of_nodup ((List.nodup_range n).filter p)]
  congr 1
  ext d
  simp [List.mem_toFinset, List.mem_filter, List.mem_range, Finset.mem_filter,
    Finset.mem_range]

/-- Counting core: with `n - 2` distinct revealed doors, all in range and
different from the in-range selected door, exactly one in-range door is
neither revealed nor selected. -/
lemma card_unopened_nonsel (n sel : Nat) (R : List Nat) (hn : 3 ≤ n)
    (hseln : sel < n) (hselR : sel ∉ R) (hlen : R.length = n - 2)
    (hnd : R.Nodup) (hsub : ∀ d ∈ R, d < n) :
    ((Finset.range n).filter (fun d => d ∉ R ∧ d ≠ sel)).card = 1 := by
  classical
  have hRF : R.toFinset ⊆ Finset.range n := by
    intro d hd
    rw [Finset.mem_range]
    exact hsub d (List.mem_toFinset.mp hd)
  have hcard : R.toFinset.card = n - 2 := by
    rw [List.toFinset_card_of_nodup hnd, hlen]
  have hset : (Finset.range n).filter (fun d => d ∉ R ∧ d ≠ sel) =
      ((Finset.range n) \ R.toFinset).erase sel := by
    ext d
    simp only [Finset.mem_filter, Finset.mem_erase, Finset.mem_sdiff,
      Finset.mem_range, List.mem_toFinset]
    tauto
  have hmem : sel ∈ (Finset.range n) \ R.toFinset := by
    simp only [Finset.mem_sdiff, Finset.mem_range, List.mem_toFinset]
    exact ⟨hseln, hselR⟩
  rw [hset, Finset.card_erase_of_mem hmem, Finset.card_sdiff hRF, hcard,
    Finset.card_range]
  omega

/-- List form of the counting core, for any boolean predicate equivalent to
"neither revealed nor selected". -/
lemma length_unopened_nonsel (n sel : Nat) (R : List Nat) (p : Nat → Bool)
    (hp : ∀ d, p d = true ↔ (d ∉ R ∧ d ≠ sel)) (hn : 3 ≤ n)
    (hseln : sel < n) (hselR : sel ∉ R) (hlen : R.length = n - 2)
    (hnd : R.Nodup) (hsub : ∀ d ∈ R, d < n) :
    ((List.range n).filter p).length = 1 := by
  classical
  rw [length_filter_range]
  have hset : (Finset.range n).filter (fun d => p d = true) =
      (Finset.range n).filter (fun d => d ∉ R ∧ d ≠ sel) := by
    ext d
    simp only [Finset.mem_filter, hp]
  rw [hset]
  exact card_unopened_nonsel n sel R hn hseln hselR hlen hnd hsub

/-- The candidate list of the reveal step misses at most two doors of the
range: its length is at least `numDoors - 2`. -/
lemma availableDoors_length_ge (c i : Nat) (s : GameState)
    (hcar : s.carDoor = some c) (hsel : s.selectedDoor = some i) :
    s.numDoors - 2 ≤ (availableDoorsOf s).length := by
  classical
  unfold availableDoorsOf
  rw [length_filter_range]
  have hset : (Finset.range s.numDoors).filter
        (fun d => decide (some d ≠ s.carDoor ∧ some d ≠ s.selectedDoor) = true) =
      (Finset.range s.numDoors).filter (fun d => d ≠ c ∧ d ≠ i) := by
    ext d
    simp [hcar, hsel]
  rw [hset]
  have hsplit := Finset.filter_card_add_filter_neg_card_eq_card
    (s := Finset.range s.numDoors) (p := fun d => d ≠ c ∧ d ≠ i)
  have hsub2 : (Finset.range s.numDoors).filter (fun d => ¬(d ≠ c ∧ d ≠ i)) ⊆
      ({c, i} : Finset Nat) := by
    intro d hd
    simp only [Finset.mem_filter, not_and_or, not_not] at hd
    simp only [Finset.mem_insert, Finset.mem_singleton]
    tauto
  have hcard2 : ((Finset.range s.numDoors).filter (fun d => ¬(d ≠ c ∧ d ≠ i))).card ≤ 2 := by
    refine (Finset.card_le_card hsub2).trans ?_
    refine (Finset.card_insert_le c {i}).trans ?_
    simp
  rw [Finset.card_range] at hsplit
  omega

/-- A filter of a filter of `List.range n` has the length of the
corresponding conjunction filter of `Finset.range n`. -/
lemma length_filter_filter_range (n : Nat) (p q : Nat → Bool) :
    (((List.range n).filter p).filter q).length =
      ((Finset.range n).filter (fun d => p d = true ∧ q d = true)).card := by
  rw [← List.toFinset_card_of_nodup
    (List.Nodup.filter q (List.Nodup.filter p (List.nodup_range n)))]
  congr 1
  ext d
  simp only [List.mem_toFinset, List.mem_filter, List.mem_range, Finset.mem_filter,
    Finset.mem_range]
  tauto

/-- The `otherUnopened` count computed by `calculateProbability` is the
number of in-range doors that are neither revealed nor selected. -/
lemma kcode_eq_card (s : GameState) (sel : Nat) (hsel : s.selectedDoor = some sel) :
    ((unopenedDoorsOf s).filter (fun d => decide (some d ≠ s.selectedDoor))).length =
      ((Finset.range s.numDoors).filter (fun d => d ∉ s.revealedDoors ∧ d ≠ sel)).card := by
  classical
  unfold unopenedDoorsOf
  rw [length_filter_filter_range]
  congr 1
  ext d
  simp [hsel]

/-- C1: for every `doorCount ≥ 3` and every car door and selected index in
`[0, doorCount)` — including the case where the selected door is the car
door — after `selectDoor` completes the reveal step, `revealedDoors`
contains exactly `doorCount - 2` doors, none of which is the car door or
the selected door, and exactly one unopened door other than the selection
remains (a valid switch target).  This holds for every sequence of random
draws the reveal loop can make. -/
theorem selectDoor_reveal_invariant (s : GameState) (rand : Nat → Nat) (c i : Nat)
    (hn : 3 ≤ s.numDoors) (hphase : s.phase = "SELECT")
    (hcar : s.carDoor = some c) (hc : c < s.numDoors) (hi : i < s.numDoors)
    (hrev : s.revealedDoors = []) :
    (selectDoor rand i s).1.revealedDoors.length = s.numDoors - 2 ∧
    c ∉ (selectDoor rand i s).1.revealedDoors ∧
    i ∉ (selectDoor rand i s).1.revealedDoors ∧
    ((List.range s.numDoors).filter
      (fun d => decide (d ∉ (selectDoor rand i s).1.revealedDoors ∧ d ≠ i))).length = 1 := by
  have hguard : ¬ (s.phase ≠ "SELECT") := by rw [hphase]; simp
  set s1 : GameState := { s with selectedDoor := some i, phase := "SWITCH_OR_STAY" }
  have hcar1 : s1.carDoor = some c := hcar
  have hstep : (selectDoor rand i s).1 = revealDoor rand s1 := by
    unfold selectDoor
    rw [if_neg hguard]
  have hAlen : s.numDoors - 2 ≤ (availableDoorsOf s1).length :=
    availableDoors_length_ge c i s1 hcar rfl
  have hAmem : ∀ d ∈ availableDoorsOf s1, d < s.numDoors ∧ d ≠ c ∧ d ≠ i := by
    intro d hd
    unfold availableDoorsOf at hd
    rw [List.mem_filter] at hd
    obtain ⟨hd1, hd2⟩ := hd
    rw [decide_eq_true_iff] at hd2
    rw [List.mem_range] at hd1
    refine ⟨hd1, ?_, ?_⟩
    · intro hdc
      exact hd2.1 (by rw [hdc, hcar1])
    · intro hdi
      exact hd2.2 (by rw [hdi])
  have hR : (selectDoor rand i s).1.revealedDoors =
      (revealLoop rand (min (s.numDoors - 2) (availableDoorsOf s1).length) 0
        (availableDoorsOf s1) s.revealedDoors).2 := by
    rw [hstep]; rfl
  rw [hrev, Nat.min_eq_left hAlen] at hR
  have hperm := revealLoop_perm rand (s.numDoors - 2) 0 (availableDoorsOf s1) []
  rw [List.nil_append] at hperm
  have hlenR : (revealLoop rand (s.numDoors - 2) 0 (availableDoorsOf s1) []).2.length
      = s.numDoors - 2 := by
    have := revealLoop_length rand (s.numDoors - 2) 0 (availableDoorsOf s1) [] hAlen
    simpa using this
  have hmemR : ∀ d ∈ (revealLoop rand (s.numDoors - 2) 0 (availableDoorsOf s1) []).2,
      d ∈ availableDoorsOf s1 := by
    intro d hd
    exact hperm.mem_iff.mp (List.mem_append_left _ hd)
  have hndR : (revealLoop rand (s.numDoors - 2) 0 (availableDoorsOf s1) []).2.Nodup := by
    have hAnd : (availableDoorsOf s1).Nodup := List.Nodup.filter _ (List.nodup_range _)
    exact List.Nodup.of_append_left (hperm.nodup_iff.mpr hAnd)
  have hcR : c ∉ (revealLoop rand (s.numDoors - 2) 0 (availableDoorsOf s1) []).2 := by
    intro hcmem
    exact ((hAmem c (hmemR c hcmem)).2.1) rfl
  have hiR : i ∉ (revealLoop rand (s.numDoors - 2) 0 (availableDoorsOf s1) []).2 := by
    intro himem
    exact ((hAmem i (hmemR i himem)).2.2) rfl
  have hsubR : ∀ d ∈ (revealLoop rand (s.numDoors - 2) 0 (availableDoorsOf s1) []).2,
      d < s.numDoors := fun d hd => (hAmem d (hmemR d hd)).1
  refine ⟨by rw [hR]; exact hlenR, by rw [hR]; exact hcR, by rw [hR]; exact hiR, ?_⟩
  simp only [hR]
  exact length_unopened_nonsel s.numDoors i _ _ (fun d => by simp) hn hi hiR hlenR hndR hsubR

/-- Witness for C1 at a concrete input: three doors, car behind door 0,
door 0 selected (the selected-door-is-car case). -/
theorem selectDoor_reveal_invariant_witness :
    (selectDoor (fun _ => 0) 0 exampleSelectState).1.revealedDoors.length =
      exampleSelectState.numDoors - 2 ∧
    0 ∉ (selectDoor (fun _ => 0) 0 exampleSelectState).1.revealedDoors ∧
    0 ∉ (selectDoor (fun _ => 0) 0 exampleSelectState).1.revealedDoors ∧
    ((List.range exampleSelectState.numDoors).filter
      (fun d => decide (d ∉ (selectDoor (fun _ => 0) 0 exampleSelectState).1.revealedDoors ∧
        d ≠ 0))).length = 1 :=
  selectDoor_reveal_invariant exampleSelectState (fun _ => 0) 0 0 (by decide) rfl rfl
    (by decide) (by decide) rfl

/-- C2: in phase DECIDE (`"SWITCH_OR_STAY"`), for every door index in
`[0, doorCount)`, `calculateProbability` returns `1 / doorCount` for the
originally selected door, `0` for every revealed door, and
`(1 - 1/doorCount) / k` for every other unopened door, where `k` is the
number of unopened doors excluding the selected door. -/
theorem probabilityOf_decide (s : GameState) (sel d : Nat)
    (hphase : s.phase = "SWITCH_OR_STAY") (hsel : s.selectedDoor = some sel)
    (hselR : sel ∉ s.revealedDoors) (hd : d < s.numDoors) :
    (d = sel → calculateProbability s d = 1 / (s.numDoors : ℚ)) ∧
    (d ∈ s.revealedDoors → calculateProbability s d = 0) ∧
    (d ≠ sel → d ∉ s.revealedDoors →
      calculateProbability s d =
        (1 - 1 / (s.numDoors : ℚ)) /
          (((Finset.range s.numDoors).filter
              (fun j => j ∉ s.revealedDoors ∧ j ≠ sel)).card : ℚ)) := by
  have hps : ¬ (s.phase = "SELECT") := by rw [hphase]; simp
  refine ⟨?_, ?_, ?_⟩
  · intro hdsel
    unfold calculateProbability
    rw [if_neg hps, if_pos hphase, if_pos (by rw [hsel, hdsel])]
  · intro hdR
    have hdsel : ¬ (some d = s.selectedDoor) := by
      rw [hsel]
      intro hcontra
      rw [Option.some.injEq] at hcontra
      exact hselR (hcontra ▸ hdR)
    unfold calculateProbability
    rw [if_neg hps, if_pos hphase, if_neg hdsel, if_pos hdR]
  · intro hdsel hdR
    have hdsel2 : ¬ (some d = s.selectedDoor) := by
      rw [hsel, Option.some.injEq]
      exact hdsel
    unfold calculateProbability
    rw [if_neg hps, if_pos hphase, if_neg hdsel2, if_neg hdR, kcode_eq_card s sel hsel]

/-- Witness for C2 at a concrete input: three doors, car behind door 1,
door 0 selected, door 2 revealed; door 1 is the other unopened door. -/
theorem probabilityOf_decide_witness :
    calculateProbability exampleDecideState 1 =
      (1 - 1 / (exampleDecideState.numDoors : ℚ)) /
        (((Finset.range exampleDecideState.numDoors).filter
            (fun j => j ∉ exampleDecideState.revealedDoors ∧ j ≠ 0)).card : ℚ) :=
  ((probabilityOf_decide exampleDecideState 0 1 rfl rfl (by decide) (by decide)).2.2)
    (by decide) (by decide)

/-- C3: in every phase, under the state invariants (car door in range, and
in phase DECIDE a selected door in range with `doorCount - 2` distinct
in-range revealed doors excluding it), the probabilities of all doors sum
to exactly 1 over the rationals. -/
theorem probability_sum_one (s : GameState) (c : Nat)
    (hn : 3 ≤ s.numDoors) (hcar : s.carDoor = some c) (hc : c < s.numDoors)
    (hdec : s.phase = "SWITCH_OR_STAY" →
      ∃ sel, s.selectedDoor = some sel ∧ sel < s.numDoors ∧ sel ∉ s.revealedDoors ∧
        s.revealedDoors.length = s.numDoors - 2 ∧ s.revealedDoors.Nodup ∧
        ∀ d ∈ s.revealedDoors, d < s.numDoors) :
    ∑ d ∈ Finset.range s.numDoors, calculateProbability s d = 1 := by
  have hn0 : (s.numDoors : ℚ) ≠ 0 := Nat.cast_ne_zero.mpr (by omega)
  by_cases h1 : s.phase = "SELECT"
  · have heval : ∀ d ∈ Finset.range s.numDoors,
        calculateProbability s d = 1 / (s.numDoors : ℚ) := by
      intro d _
      unfold calculateProbability
      rw [if_pos h1]
    rw [Finset.sum_congr rfl heval, Finset.sum_const, Finset.card_range, nsmul_eq_mul]
    field_simp
  · by_cases h2 : s.phase = "SWITCH_OR_STAY"
    · obtain ⟨sel, hsel, hseln, hselR, hlen, hnd, hsub⟩ := hdec h2
      have hk : (((unopenedDoorsOf s).filter
          (fun d => decide (some d ≠ s.selectedDoor))).length) = 1 := by
        rw [kcode_eq_card s sel hsel]
        exact card_unopened_nonsel s.numDoors sel s.revealedDoors hn hseln hselR hlen hnd hsub
      have hRF : s.revealedDoors.toFinset ⊆ Finset.range s.numDoors := by
        intro x hx
        rw [Finset.mem_range]
        exact hsub x (List.mem_toFinset.mp hx)
      have hRFcard : s.revealedDoors.toFinset.card = s.numDoors - 2 := by
        rw [List.toFinset_card_of_nodup hnd, hlen]
      have hselmem : sel ∈ (Finset.range s.numDoors) \ s.revealedDoors.toFinset := by
        simp only [Finset.mem_sdiff, Finset.mem_range, List.mem_toFinset]
        exact ⟨hseln, hselR⟩
      have hUcard :
          (((Finset.range s.numDoors) \ s.revealedDoors.toFinset).erase sel).card = 1 := by
        rw [Finset.card_erase_of_mem hselmem, Finset.card_sdiff hRF, hRFcard,
          Finset.card_range]
        omega
      obtain ⟨u, hu⟩ := Finset.card_eq_one.mp hUcard
      have humem : u ∈ ((Finset.range s.numDoors) \ s.revealedDoors.toFinset).erase sel := by
        rw [hu]
        exact Finset.mem_singleton_self u
      have hupro : u ≠ sel ∧ u < s.numDoors ∧ u ∉ s.revealedDoors := by
        rw [Finset.mem_erase, Finset.mem_sdiff, Finset.mem_range, List.mem_toFinset] at humem
        tauto
      have hpart : Finset.range s.numDoors =
          ({sel} ∪ s.revealedDoors.toFinset) ∪
            (((Finset.range s.numDoors) \ s.revealedDoors.toFinset).erase sel) := by
        ext x
        simp only [Finset.mem_union, Finset.mem_singleton, Finset.mem_erase,
          Finset.mem_sdiff, Finset.mem_range, List.mem_toFinset]
        constructor
        · intro hx
          by_cases hxs : x = sel
          · exact Or.inl (Or.inl hxs)
          · by_cases hxr : x ∈ s.revealedDoors
            · exact Or.inl (Or.inr hxr)
            · exact Or.inr ⟨hxs, hx, hxr⟩
        · intro hx
          rcases hx with (hxs | hxr) | ⟨_, hx2, _⟩
          · rw [hxs]; exact hseln
          · exact hsub x hxr
          · exact hx2
      have hdisj1 : Disjoint ({sel} : Finset Nat) s.revealedDoors.toFinset := by
        rw [Finset.disjoint_left]
        intro a ha hb
        rw [Finset.mem_singleton] at ha
        rw [List.mem_toFinset] at hb
        exact hselR (ha ▸ hb)
      have hdisj2 : Disjoint (({sel} : Finset Nat) ∪ s.revealedDoors.toFinset)
          (((Finset.range s.numDoors) \ s.revealedDoors.toFinset).erase sel) := by
        rw [Finset.disjoint_left]
        intro a ha hb
        rw [Finset.mem_erase, Finset.mem_sdiff] at hb
        rw [Finset.mem_union, Finset.mem_singleton] at ha
        rcases ha with ha | ha
        · exact hb.1 ha
        · exact hb.2.2 ha
      have hfsel : calculateProbability s sel = 1 / (s.numDoors : ℚ) := by
        unfold calculateProbability
        rw [if_neg h1, if_pos h2, if_pos (by rw [hsel])]
      have hfR : ∀ x ∈ s.revealedDoors.toFinset, calculateProbability s x = 0 := by
        intro x hx
        rw [List.mem_toFinset] at hx
        have hxsel : ¬ (some x = s.selectedDoor) := by
          rw [hsel]
          intro hcontra
          rw [Option.some.injEq] at hcontra
          exact hselR (hcontra ▸ hx)
        unfold calculateProbability
        rw [if_neg h1, if_pos h2, if_neg hxsel, if_pos hx]
      have hfu : calculateProbability s u = 1 - 1 / (s.numDoors : ℚ) := by
        have husel : ¬ (some u = s.selectedDoor) := by
          rw [hsel, Option.some.injEq]
          exact hupro.1
        unfold calculateProbability
        rw [if_neg h1, if_pos h2, if_neg husel, if_neg hupro.2.2, hk]
        norm_num
      rw [hpart, Finset.sum_union hdisj2, Finset.sum_union hdisj1, Finset.sum_singleton,
        hu, Finset.sum_singleton, hfsel, hfu, Finset.sum_eq_zero hfR]
      ring
    · have heval : ∀ d ∈ Finset.range s.numDoors,
          calculateProbability s d = (if d = c then (1 : ℚ) else 0) := by
        intro d _
        unfold calculateProbability
        rw [if_neg h1, if_neg h2, hcar]
        simp
      rw [Finset.sum_congr rfl heval,
        Finset.sum_ite_eq' (Finset.range s.numDoors) c (fun _ => (1 : ℚ)),
        if_pos (Finset.mem_range.mpr hc)]

/-- Witness for C3 at a concrete input: the DECIDE-phase state with three
doors, car behind door 1, door 0 selected and door 2 revealed. -/
theorem probability_sum_one_witness :
    ∑ d ∈ Finset.range exampleDecideState.numDoors,
      calculateProbability exampleDecideState d = 1 :=
  probability_sum_one exampleDecideState 1 (by decide) rfl (by decide)
    (fun _ => ⟨0, rfl, by decide, by decide, by decide, by decide, by decide⟩)

/-- C4: in phase DECIDE (`"SWITCH_OR_STAY"`) under the reveal invariant,
`makeDecision "switch"` moves the selection to the unique in-range door
that is neither the prior selection nor revealed, `makeDecision "stay"`
leaves the selection unchanged, the `won` result equals whether the final
selection is the car door, `totalGames` increments by exactly 1 and the
phase becomes RESOLVED (`"REVEAL"`) — the latter three for every decision
string. -/
theorem makeDecision_resolve (s : GameState) (sel : Nat)
    (hphase : s.phase = "SWITCH_OR_STAY") (hsel : s.selectedDoor = some sel)
    (hseln : sel < s.numDoors) (hselR : sel ∉ s.revealedDoors)
    (hlen : s.revealedDoors.length = s.numDoors - 2) (hnd : s.revealedDoors.Nodup)
    (hsub : ∀ d ∈ s.revealedDoors, d < s.numDoors) (hn : 3 ≤ s.numDoors) :
    (∀ u, u < s.numDoors → u ≠ sel → u ∉ s.revealedDoors →
      (makeDecision "switch" s).state.selectedDoor = some u) ∧
    (makeDecision "stay" s).state.selectedDoor = s.selectedDoor ∧
    (∀ decision, (makeDecision decision s).won = some true ↔
      (makeDecision decision s).state.selectedDoor = s.carDoor) ∧
    (∀ decision, (makeDecision decision s).state.totalGames = s.totalGames + 1) ∧
    (∀ decision, (makeDecision decision s).state.phase = "REVEAL") := by
  have hguard : ¬ (s.phase ≠ "SWITCH_OR_STAY") := by rw [hphase]; simp
  have hmk : ∀ dec, makeDecision dec s =
      ⟨{ mdStats dec s with selectedDoor := mdFinalDoor dec s, phase := "REVEAL" },
       some (mdWon dec s), saveStatistics (mdStats dec s), none⟩ := by
    intro dec
    unfold makeDecision
    rw [if_neg hguard]
  have hselproj : ∀ dec, (makeDecision dec s).state.selectedDoor = mdFinalDoor dec s := by
    intro dec
    rw [hmk dec]
  have htotproj : ∀ dec, (makeDecision dec s).state.totalGames = s.totalGames + 1 := by
    intro dec
    rw [hmk dec]
    show (mdStats dec s).totalGames = s.totalGames + 1
    unfold mdStats
    split_ifs <;> rfl
  have hphproj : ∀ dec, (makeDecision dec s).state.phase = "REVEAL" := by
    intro dec
    rw [hmk dec]
  set L := (List.range s.numDoors).filter
      (fun i => decide (some i ≠ s.selectedDoor ∧ i ∉ s.revealedDoors)) with hL
  have hLlen : L.length = 1 := by
    rw [hL]
    exact length_unopened_nonsel s.numDoors sel s.revealedDoors _
      (fun d => by simp [hsel, and_comm]) hn hseln hselR hlen hnd hsub
  obtain ⟨v, hv⟩ := List.length_eq_one.mp hLlen
  have hst : switchTarget s = some v := by
    unfold switchTarget
    rw [← hL, hv]
    rfl
  refine ⟨?_, ?_, ?_, htotproj, hphproj⟩
  · intro u hu1 hu2 hu3
    have humem : u ∈ L := by
      rw [hL, List.mem_filter]
      refine ⟨List.mem_range.mpr hu1, ?_⟩
      rw [decide_eq_true_iff, hsel]
      exact ⟨by simp [hu2], hu3⟩
    rw [hv, List.mem_singleton] at humem
    rw [hselproj "switch"]
    unfold mdFinalDoor
    rw [if_pos rfl, hst, humem]
  · rw [hselproj "stay"]
    unfold mdFinalDoor
    rw [if_neg (by decide)]
  · intro dec
    rw [hmk dec]
    show some (mdWon dec s) = some true ↔ mdFinalDoor dec s = s.carDoor
    unfold mdWon
    simp

/-- Witness for C4 at a concrete input: switching from door 0 in the
three-door DECIDE state with door 2 revealed lands on door 1. -/
theorem makeDecision_resolve_witness :
    (makeDecision "switch" exampleDecideState).state.selectedDoor = some 1 :=
  (makeDecision_resolve exampleDecideState 0 rfl rfl (by decide) (by decide) (by decide)
    (by decide) (by decide) (by decide)).1 1 (by decide) (by decide) (by decide)

/-- C5 counterexample: calling `makeDecision` in phase SELECT does leave
the state unchanged, but returns normally with no error at all — it does
not signal `InvalidPhaseTransition`, contrary to the claim. -/
theorem makeDecision_select_counterexample :
    makeDecision "switch" exampleSelectState =
      ⟨exampleSelectState, none, [], none⟩ ∧
    ¬ ((makeDecision "switch" exampleSelectState).err =
        some MontyError.invalidPhaseTransition) := by
  refine ⟨by decide, by decide⟩

/-- C5 amended: calling `makeDecision` (resolveRound) while
`phase = SELECT` is silently ignored — the call returns without signalling
any error, produces no outcome and no storage writes, and leaves the
entire game state unchanged. -/
theorem makeDecision_wrong_phase_silent (s : GameState) (decision : String)
    (h : s.phase = "SELECT") :
    makeDecision decision s = ⟨s, none, [], none⟩ := by
  unfold makeDecision
  rw [if_pos (by rw [h]; decide)]

/-- Witness for the amended C5 at a concrete SELECT-phase state. -/
theorem makeDecision_wrong_phase_silent_witness :
    makeDecision "stay" exampleSelectState = ⟨exampleSelectState, none, [], none⟩ :=
  makeDecision_wrong_phase_silent exampleSelectState "stay" rfl

/-- C6 counterexample: in phase SELECT, `selectDoor` with the out-of-range
index 99 (doorCount = 3) is not rejected: no error is signalled, the
selection becomes 99 and the phase advances — the state changes, contrary
to the claim. -/
theorem selectDoor_out_of_range_counterexample :
    (selectDoor (fun _ => 0) 99 exampleSelectState).1.selectedDoor = some 99 ∧
    (selectDoor (fun _ => 0) 99 exampleSelectState).1.phase = "SWITCH_OR_STAY" ∧
    (selectDoor (fun _ => 0) 99 exampleSelectState).2 = none := by
  refine ⟨by decide, by decide, by decide⟩

/-- C6 amended: `selectDoor` performs no index validation at all — in
phase SELECT every index, in range or not, is accepted without any error:
the selection is set to it and the phase advances to DECIDE. -/
theorem selectDoor_no_validation (s : GameState) (rand : Nat → Nat) (i : Nat)
    (h : s.phase = "SELECT") :
    (selectDoor rand i s).1.selectedDoor = some i ∧
    (selectDoor rand i s).1.phase = "SWITCH_OR_STAY" ∧
    (selectDoor rand i s).2 = none := by
  have hguard : ¬ (s.phase ≠ "SELECT") := by rw [h]; simp
  unfold selectDoor
  rw [if_neg hguard]
  exact ⟨rfl, rfl, rfl⟩

/-- Witness for the amended C6 at a concrete in-range input. -/
theorem selectDoor_no_validation_witness :
    (selectDoor (fun _ => 1) 2 exampleSelectState).1.selectedDoor = some 2 ∧
    (selectDoor (fun _ => 1) 2 exampleSelectState).1.phase = "SWITCH_OR_STAY" ∧
    (selectDoor (fun _ => 1) 2 exampleSelectState).2 = none :=
  selectDoor_no_validation exampleSelectState (fun _ => 1) 2 rfl

/-- C7 counterexample: doorCount 16 lies in the claimed accepted range
`[3, 16]` but the UI change handler ignores it (the bound in the source is
`3 ≤ n ≤ 10`), and `resetGame` signals no `InvalidDoorCount` error even
for doorCount 2. -/
theorem doorCount_policy_counterexample :
    (doorCountChange 16 0 exampleSelectState).1.numDoors = 3 ∧
    (doorCountChange 16 0 exampleSelectState).1 = exampleSelectState ∧
    (resetGame 0 { exampleSelectState with numDoors := 2 }).2 = none := by
  refine ⟨by decide, by decide, by decide⟩

/-- C7 amended: the UI-enforced bound is `3 ≤ doorCount ≤ 10` — such
values are accepted and set `numDoors`, any other value is silently
ignored with no state change — and `resetGame` (startRound) performs no
doorCount validation and never signals an error. -/
theorem doorCount_policy (c : Int) (r : Nat) (s : GameState) :
    (3 ≤ c ∧ c ≤ 10 → (doorCountChange c r s).1.numDoors = c.toNat) ∧
    (¬ (3 ≤ c ∧ c ≤ 10) → doorCountChange c r s = (s, none)) ∧
    (resetGame r s).2 = none := by
  refine ⟨?_, ?_, rfl⟩
  · intro h
    unfold doorCountChange
    rw [if_pos h]
    rfl
  · intro h
    unfold doorCountChange
    rw [if_neg h]

/-- Witness for the amended C7: doorCount 5 is accepted. -/
theorem doorCount_policy_witness :
    (doorCountChange 5 0 exampleSelectState).1.numDoors = (5 : Int).toNat :=
  (doorCount_policy 5 0 exampleSelectState).1 (by decide)

/-- C8 counterexample: `saveStatistics` persists exactly three keys — stay
wins, switch wins and total games.  No per-strategy round counters
(`stayRounds` / `switchRounds`) exist anywhere in the state or in the
persisted data, contrary to the claim. -/
theorem saveStatistics_keys_counterexample :
    (saveStatistics exampleSelectState).map Prod.fst =
      ["montyHall_stayWins", "montyHall_switchWins", "montyHall_totalGames"] ∧
    (saveStatistics exampleSelectState).length = 3 := by
  exact ⟨rfl, rfl⟩

/-- C8 amended: every `makeDecision` in phase DECIDE increments
`totalGames` by 1 and conditionally `stayWins` (winning `"stay"`) or
`switchWins` (winning non-`"stay"`); the game keeps no `stayRounds` or
`switchRounds` counters; and the writes performed during the call persist
exactly the three counters of the post-state. -/
theorem makeDecision_persists (s : GameState) (decision : String)
    (h : s.phase = "SWITCH_OR_STAY") :
    (makeDecision decision s).state.totalGames = s.totalGames + 1 ∧
    ((makeDecision decision s).state.stayWins =
      if decision = "stay" ∧ (makeDecision decision s).won = some true
      then s.stayWins + 1 else s.stayWins) ∧
    ((makeDecision decision s).state.switchWins =
      if decision ≠ "stay" ∧ (makeDecision decision s).won = some true
      then s.switchWins + 1 else s.switchWins) ∧
    (makeDecision decision s).saved = saveStatistics (makeDecision decision s).state ∧
    ((makeDecision decision s).saved.map Prod.fst =
      ["montyHall_stayWins", "montyHall_switchWins", "montyHall_totalGames"]) := by
  have hguard : ¬ (s.phase ≠ "SWITCH_OR_STAY") := by rw [h]; simp
  have hmk : makeDecision decision s =
      ⟨{ mdStats decision s with
          selectedDoor := mdFinalDoor decision s, phase := "REVEAL" },
       some (mdWon decision s), saveStatistics (mdStats decision s), none⟩ := by
    unfold makeDecision
    rw [if_neg hguard]
  refine ⟨?_, ?_, ?_, ?_, ?_⟩
  · rw [hmk]
    show (mdStats decision s).totalGames = s.totalGames + 1
    unfold mdStats
    split_ifs <;> rfl
  · rw [hmk]
    show (mdStats decision s).stayWins =
      if decision = "stay" ∧ some (mdWon decision s) = some true
      then s.stayWins + 1 else s.stayWins
    unfold mdStats
    simp only [Option.some.injEq]
    split_ifs <;> first | rfl | tauto
  · rw [hmk]
    show (mdStats decision s).switchWins =
      if decision ≠ "stay" ∧ some (mdWon decision s) = some true
      then s.switchWins + 1 else s.switchWins
    unfold mdStats
    simp only [Option.some.injEq]
    split_ifs <;> first | rfl | tauto
  · rw [hmk]
    rfl
  · rw [hmk]
    rfl

/-- Witness for the amended C8 at a concrete DECIDE-phase state. -/
theorem makeDecision_persists_witness :
    (makeDecision "stay" exampleWinStayState).state.totalGames =
      exampleWinStayState.totalGames + 1 :=
  (makeDecision_persists exampleWinStayState "stay" rfl).1

/-- C9: `resetGame` (startRound) sets the car door to a value in
`[0, doorCount)`, clears the selection and the revealed doors, enters
phase SELECT, and changes nothing else: every statistics counter, the
door count and the probability toggle are untouched. -/
theorem resetGame_round_reset (s : GameState) (r : Nat) (h : 1 ≤ s.numDoors) :
    (∃ cd, (resetGame r s).1.carDoor = some cd ∧ cd < s.numDoors) ∧
    (resetGame r s).1.selectedDoor = none ∧
    (resetGame r s).1.revealedDoors = [] ∧
    (resetGame r s).1.phase = "SELECT" ∧
    (resetGame r s).1.stayWins = s.stayWins ∧
    (resetGame r s).1.switchWins = s.switchWins ∧
    (resetGame r s).1.totalGames = s.totalGames ∧
    (resetGame r s).1.numDoors = s.numDoors ∧
    (resetGame r s).1.showProbabilities = s.showProbabilities :=
  ⟨⟨r % s.numDoors, rfl, Nat.mod_lt r (by omega)⟩, rfl, rfl, rfl, rfl, rfl, rfl, rfl, rfl⟩

/-- Witness for C9: a reset of a state with nonzero counters re-enters
phase SELECT. -/
theorem resetGame_round_reset_witness :
    (resetGame 7 exampleWinStayState).1.phase = "SELECT" :=
  (resetGame_round_reset exampleWinStayState 7 (by decide)).2.2.2.1

/-- C10: in phase DECIDE, any decision string other than `"switch"` leaves
the selected door unchanged, yet a winning decision string other than
`"stay"` increments `switchWins` (and not `stayWins`) — an unrecognized
decision behaves as STAY for the door outcome but is credited to the
SWITCH statistics. -/
theorem makeDecision_unrecognized (s : GameState) (decision : String)
    (hphase : s.phase = "SWITCH_OR_STAY") (hdec : decision ≠ "switch") :
    (makeDecision decision s).state.selectedDoor = s.selectedDoor ∧
    (decision ≠ "stay" → (makeDecision decision s).won = some true →
      (makeDecision decision s).state.switchWins = s.switchWins + 1 ∧
      (makeDecision decision s).state.stayWins = s.stayWins) := by
  have hguard : ¬ (s.phase ≠ "SWITCH_OR_STAY") := by rw [hphase]; simp
  have hmk : makeDecision decision s =
      ⟨{ mdStats decision s with
          selectedDoor := mdFinalDoor decision s, phase := "REVEAL" },
       some (mdWon decision s), saveStatistics (mdStats decision s), none⟩ := by
    unfold makeDecision
    rw [if_neg hguard]
  constructor
  · rw [hmk]
    show mdFinalDoor decision s = s.selectedDoor
    unfold mdFinalDoor
    rw [if_neg hdec]
  · intro hstay hwon
    rw [hmk] at hwon
    have hw : mdWon decision s = true := by simpa using hwon
    constructor
    · rw [hmk]
      show (mdStats decision s).switchWins = s.switchWins + 1
      unfold mdStats
      rw [if_neg hstay, if_pos hw]
    · rw [hmk]
      show (mdStats decision s).stayWins = s.stayWins
      unfold mdStats
      rw [if_neg hstay, if_pos hw]

/-- Witness for C10: deciding `"foo"` in a state where staying wins keeps
the door (and wins) but credits `switchWins`. -/
theorem makeDecision_unrecognized_witness :
    (makeDecision "foo" exampleWinStayState).state.selectedDoor =
        exampleWinStayState.selectedDoor ∧
    (makeDecision "foo" exampleWinStayState).state.switchWins =
        exampleWinStayState.switchWins + 1 := by
  have h := makeDecision_unrecognized exampleWinStayState "foo" rfl (by decide)
  exact ⟨h.1, (h.2 (by decide) (by decide)).1⟩

end MontyHallSim
